import Mathlib

/-!
Verification development for the `json_logging` library
(sources: `json_logging/__init__.py` and `json_logging/framework/django/__init__.py`).

Modelling conventions:
* Python dictionaries become association lists `List (String × α)` with
  first-match lookup; insertion of an existing key keeps its position and
  replaces the value, insertion of a fresh key appends at the end, matching
  CPython's insertion-ordered dict semantics.
* JSON values are the inductive `JVal`.
* Wall-clock instants (`datetime.utcnow()`) are natural numbers counting
  microseconds since the epoch, with exact (rational) arithmetic in place of
  Python's float `total_seconds()`.
* Python exceptions become `Except PyError` results; a function that cannot
  raise is total.
-/

/-- JSON values as produced by the formatters (only the shapes the source
actually emits: strings, integers and `null`). -/
inductive JVal where
  | jnull : JVal
  | jstr : String → JVal
  | jint : Int → JVal
deriving DecidableEq, Repr

/-- The Python exceptions the modelled code can raise. -/
inductive PyError where
  | runtimeError : String → PyError
  | valueError : PyError
  | keyError : PyError
  | attributeError : PyError
deriving DecidableEq, Repr

/-- First-match lookup in an association list, Python's `d[k]` / `d.get(k)`. -/
def dictGet? {α : Type} : List (String × α) → String → Option α
  | [], _ => none
  | (k', v) :: rest, k => if k' = k then some v else dictGet? rest k

/-- Python's `d.get(k, default)`. -/
def dictGetD {α : Type} (d : List (String × α)) (k : String) (dflt : α) : α :=
  (dictGet? d k).getD dflt

/-- Python's `k in d`. -/
def dictContains {α : Type} (d : List (String × α)) (k : String) : Bool :=
  d.any (fun p => p.1 == k)

/-- Python's `d[k] = v`: replace in place if the key exists, else append. -/
def dictSet {α : Type} (d : List (String × α)) (k : String) (v : α) :
    List (String × α) :=
  if dictContains d k then d.map (fun p => if p.1 = k then (k, v) else p)
  else d ++ [(k, v)]

/-- Python's `d.update(ps)`: fold `d[k] = v` over the entries of `ps`. -/
def dictUpdate {α : Type} (d ps : List (String × α)) : List (String × α) :=
  ps.foldl (fun acc p => dictSet acc p.1 p.2) d

/-! Module-level constants of `json_logging/__init__.py`. -/

/-- `EMPTY_VALUE = '-'` (line 19). -/
def EMPTY_VALUE : String := "-"

/-- `CORRELATION_ID_HEADERS = ['X-Correlation-ID', 'X-Request-ID']` (line 22). -/
def CORRELATION_ID_HEADERS : List String := ["X-Correlation-ID", "X-Request-ID"]

/-- `COMPONENT_ID = EMPTY_VALUE` (line 23). -/
def COMPONENT_ID : String := EMPTY_VALUE

/-- `COMPONENT_NAME = EMPTY_VALUE` (line 24). -/
def COMPONENT_NAME : String := EMPTY_VALUE

/-- `COMPONENT_INSTANCE_INDEX = 0` (line 25). -/
def COMPONENT_INSTANCE_INDEX : Int := 0

/-! Time helpers. `util.iso_time_format` and `util.epoch_nano_second` live in
`json_logging/util.py`, which is not among the provided sources. -/

/-- Modelled from the spec: `util.iso_time_format` (in `json_logging/util.py`,
not under the provided sources) renders a UTC instant as an ISO-8601 string
("written_at (ISO-8601 UTC)", spec §4.5).  Modelled as an unspecified but
deterministic injective rendering of the instant; no claim depends on the
exact text. -/
def iso_time_format (utcnowMicros : Nat) : String :=
  "utc:" ++ toString utcnowMicros

/-- Modelled from the spec: `util.epoch_nano_second` (in
`json_logging/util.py`, not under the provided sources) returns the
nanosecond epoch of an instant ("written_ts (nanosecond epoch)", spec §4.5).
The instant is counted in microseconds, so multiply by 1000. -/
def epoch_nano_second (utcnowMicros : Nat) : Nat :=
  utcnowMicros * 1000

/-- Digit-by-digit accumulation of a decimal numeral; `none` once a
non-digit is seen. -/
def parseNatAux : Option Nat → List Char → Option Nat
  | acc, [] => acc
  | acc, c :: rest =>
    match acc with
    | none => none
    | some n =>
      if c.isDigit then parseNatAux (some (n * 10 + (c.toNat - '0'.toNat))) rest
      else none

/-- Modelled from the spec: `util.parse_int` (in `json_logging/util.py`, not
under the provided sources): "request_size (parsed to integer, -1 if
unparseable)" (spec §4.5, §8: `"512"` → `512`, `"abc"` → `-1`).  Decimal
integer parse with optional sign, default on anything unparseable. -/
def parse_int (s : String) (dflt : Int) : Int :=
  match s.data with
  | [] => dflt
  | '-' :: rest =>
    (match rest with
     | [] => dflt
     | _ =>
       match parseNatAux (some 0) rest with
       | some n => -(n : Int)
       | none => dflt)
  | cs =>
    match parseNatAux (some 0) cs with
    | some n => (n : Int)
    | none => dflt

/-- Python's `str.lower`, character by character (the framework names
involved are ASCII, where this agrees with CPython). -/
def pyLower (s : String) : String :=
  String.mk (s.data.map Char.toLower)

/-! Django request adapter (`json_logging/framework/django/__init__.py`). -/

/-- A Django `HttpRequest` as far as the adapter observes it: its `META`
dictionary plus the plain attributes the adapter reads. -/
structure DjangoRequest where
  META : List (String × String)
  path : String
  method : String
  /-- `request.user.get_username()` when a `user` attribute exists. -/
  user : Option String
deriving DecidableEq, Repr

namespace DjangoRequestAdapter

/-- The header-name conversion inside `get_http_header` (django adapter,
line 31): `'HTTP_' + header_name.upper().replace('-', '_')`, character by
character (uppercasing never produces or consumes `'-'`, so replacing the
single character after uppercasing each character is the same string). -/
def metaKey (header_name : String) : String :=
  "HTTP_" ++
    String.mk (header_name.data.map
      (fun c => if c.toUpper = '-' then '_' else c.toUpper))

/-- `get_http_header` (django adapter, lines 30-32):
`request.META.get(converted, default)`. -/
def get_http_header (request : DjangoRequest) (header_name : String)
    (default : String := EMPTY_VALUE) : String :=
  dictGetD request.META (metaKey header_name) default

/-- `set_correlation_id` (django adapter, lines 43-44):
`request.META['HTTP_X_CORRELATION_ID'] = value`. -/
def set_correlation_id (request : DjangoRequest) (value : String) :
    DjangoRequest :=
  { request with META := dictSet request.META "HTTP_X_CORRELATION_ID" value }

/-- `get_correlation_id_in_request_context` (django adapter, lines 46-47):
`request.META.get('HTTP_X_CORRELATION_ID', json_logging.EMPTY_VALUE)`. -/
def get_correlation_id_in_request_context (request : DjangoRequest) : String :=
  dictGetD request.META "HTTP_X_CORRELATION_ID" EMPTY_VALUE

/-- `get_remote_user` (django adapter, lines 34-38). -/
def get_remote_user (request : DjangoRequest) : String :=
  match request.user with
  | some u => u
  | none => EMPTY_VALUE

/-- `get_content_length` (django adapter, lines 55-56). -/
def get_content_length (request : DjangoRequest) : String :=
  dictGetD request.META "CONTENT_LENGTH" EMPTY_VALUE

/-- The raw `META` presence of a converted header: `some v` when the key is
in `META`, `none` when absent.  This is what "header present" means for the
Django adapter. -/
def headerLookup (request : DjangoRequest) (header_name : String) :
    Option String :=
  dictGet? request.META (metaKey header_name)

end DjangoRequestAdapter

/-! Correlation-id resolution.  The resolution loop lives in
`util.RequestUtil.get_correlation_id` (`json_logging/util.py`), which is not
among the provided sources, so it is modelled from the spec. -/

/-- Modelled from the spec (§4.1, `util.RequestUtil.get_correlation_id` in
`json_logging/util.py` is not under the provided sources): "search a
configured ordered list of header names ... on the request; return the first
present, non-empty value". -/
def firstPresentNonEmpty (lookup : String → Option String) :
    List String → Option String
  | [] => none
  | h :: rest =>
    match lookup h with
    | some v => if v = "" then firstPresentNonEmpty lookup rest else some v
    | none => firstPresentNonEmpty lookup rest

/-- Modelled from the spec (§4.1, `CorrelationIdPolicy.resolve`; the
implementation, `util.RequestUtil.get_correlation_id` in
`json_logging/util.py`, is not under the provided sources): return the first
present non-empty correlation header; "if none found and a create-if-missing
flag is enabled, mint a new identifier using a pluggable generator ... If
creation is disabled and none found, return a defined empty-value sentinel."
`minted` stands for the value the pluggable generator
(`CORRELATION_ID_GENERATOR`, `__init__.py` line 13) would produce. -/
def resolveCorrelationId (lookup : String → Option String)
    (createIfMissing : Bool) (minted : String) : String :=
  match firstPresentNonEmpty lookup CORRELATION_ID_HEADERS with
  | some v => v
  | none => if createIfMissing then minted else EMPTY_VALUE

/-! Django response adapter (`json_logging/framework/django/__init__.py`,
lines 68-82). -/

/-- A Django `HttpResponse` as far as the adapter observes it: its status
code, its header dictionary (`'k' in response` / `response['k']`), and the
outcome of `response.tell()` (`some n` a stream position, `none` the probe
raising `OSError`). -/
structure DjangoResponse where
  status_code : Int
  headers : List (String × String)
  tellResult : Option Int
deriving DecidableEq, Repr

namespace DjangoResponseAdapter

/-- `get_status_code` (django adapter, lines 70-71):
`return response.status_code`. -/
def get_status_code (response : DjangoResponse) : Except PyError JVal :=
  .ok (.jint response.status_code)

/-- `get_response_size` (django adapter, lines 73-79): the `Content-Length`
header when present; otherwise `response.tell()`, with `OSError` caught and
turned into the sentinel. -/
def get_response_size (response : DjangoResponse) : Except PyError JVal :=
  if dictContains response.headers "Content-Length" then
    .ok (.jstr (dictGetD response.headers "Content-Length" ""))
  else
    match response.tellResult with
    | some n => .ok (.jint n)
    | none => .ok (.jstr EMPTY_VALUE)

/-- `get_content_type` (django adapter, lines 81-82):
`return response['Content-Type']` — a plain subscript, which raises
`KeyError` when the response has no such header. -/
def get_content_type (response : DjangoResponse) : Except PyError JVal :=
  match dictGet? response.headers "Content-Type" with
  | some v => .ok (.jstr v)
  | none => .error .keyError

end DjangoResponseAdapter

/-! Adapter interfaces (`json_logging/framework_base.py` declares the
abstract classes; the operations and their shapes are those the source in
`__init__.py` calls through `_request_util.request_adapter` /
`_request_util.response_adapter`). -/

/-- The request-adapter operations `JSONRequestLogFormatter.format` calls
(`__init__.py` lines 203-221), polymorphic over the framework's request
type.  All of them are total: every concrete adapter in the source resolves
a missing fact to a default instead of raising. -/
structure RequestAdapterModel (ρ : Type) where
  get_http_header : ρ → String → String → String
  get_remote_user : ρ → String
  get_path : ρ → String
  get_protocol : ρ → String
  get_method : ρ → String
  get_remote_ip : ρ → String
  get_remote_port : ρ → JVal
  get_content_length : ρ → String

/-- The response-adapter operations `RequestInfo.update_response_status`
calls (`__init__.py` lines 187-189), polymorphic over the framework's
response type.  Results are `Except` because a concrete adapter may raise
(see `DjangoResponseAdapter.get_content_type`). -/
structure ResponseAdapterModel (σ : Type) where
  get_status_code : σ → Except PyError JVal
  get_response_size : σ → Except PyError JVal
  get_content_type : σ → Except PyError JVal

/-- The bundled Django response adapter. -/
def djangoResponseAdapter : ResponseAdapterModel DjangoResponse where
  get_status_code := DjangoResponseAdapter.get_status_code
  get_response_size := DjangoResponseAdapter.get_response_size
  get_content_type := DjangoResponseAdapter.get_content_type

/-! `RequestInfo` (`__init__.py` lines 165-190). -/

/-- `RequestInfo.__init__` stores `request_start`, the request and
`request_received_at`; the response attributes are only set later by
`update_response_status`, so before that call they are absent
(`Option.none`) and reading them raises `AttributeError`. -/
structure RequestInfo (ρ : Type) where
  request_start : Nat
  request : ρ
  request_received_at : String
  response_time_ms : Option Nat
  response_status : Option JVal
  response_size_b : Option JVal
  response_content_type : Option JVal
  response_sent_at : Option String

/-- `RequestInfo.__init__` (`__init__.py` lines 170-175): capture the
arrival instant and the request; no response attribute exists yet. -/
def RequestInfo.init {ρ : Type} (request : ρ) (utcnow : Nat) : RequestInfo ρ :=
  { request_start := utcnow
    request := request
    request_received_at := iso_time_format utcnow
    response_time_ms := none
    response_status := none
    response_size_b := none
    response_content_type := none
    response_sent_at := none }

/-- The duration arithmetic of `update_response_status` (`__init__.py`
line 186):
`int(time_delta.total_seconds()) * 1000 + int(time_delta.microseconds / 1000)`
with `time_delta = utcnow - self.request_start`.  Instants are microsecond
counts and the arithmetic is exact (no float rounding); the model covers the
monotone case `request_start ≤ utcnow`, where `total_seconds()` truncates to
the whole-second count and `microseconds` is the sub-second remainder. -/
def responseTimeMs (request_start utcnow : Nat) : Nat :=
  let deltaMicros := utcnow - request_start
  (deltaMicros / 1000000) * 1000 + (deltaMicros % 1000000) / 1000

/-- `RequestInfo.update_response_status` (`__init__.py` lines 178-190):
recompute the elapsed time and overwrite the five response attributes from
the active response adapter.  The source performs no check that the record
was not already finalized.  (Python sets the attributes one by one, so an
adapter exception leaves the earlier ones assigned; the model returns the
error without the partial assignment, which no claim observes.) -/
def RequestInfo.update_response_status {ρ σ : Type}
    (response_adapter : ResponseAdapterModel σ) (self : RequestInfo ρ)
    (response : σ) (utcnow : Nat) : Except PyError (RequestInfo ρ) :=
  match response_adapter.get_status_code response with
  | .error e => .error e
  | .ok st =>
    match response_adapter.get_response_size response with
    | .error e => .error e
    | .ok sz =>
      match response_adapter.get_content_type response with
      | .error e => .error e
      | .ok ct =>
        .ok { self with
              response_time_ms :=
                some (responseTimeMs self.request_start utcnow)
              response_status := some st
              response_size_b := some sz
              response_content_type := some ct
              response_sent_at := some (iso_time_format utcnow) }

/-! The access-log formatter `JSONRequestLogFormatter` (`__init__.py`
lines 193-228). -/

/-- `JSONRequestLogFormatter.format` (`__init__.py` lines 198-228).
`corrOf` stands for `_request_util.get_correlation_id(request)` (line 211;
its body is in `json_logging/util.py`, outside the provided sources).
Reading `record.request_info.response_time_ms` and the other response
attributes of a `RequestInfo` that was never finalized raises
`AttributeError`. -/
def JSONRequestLogFormatter.format {ρ : Type}
    (request_adapter : RequestAdapterModel ρ) (corrOf : ρ → String)
    (utcnow : Nat) (request_info : RequestInfo ρ) :
    Except PyError (List (String × JVal)) :=
  match request_info.response_time_ms, request_info.response_status,
      request_info.response_size_b, request_info.response_content_type,
      request_info.response_sent_at with
  | some rtm, some st, some sz, some ct, some sentAt =>
    let request := request_info.request
    let length := request_adapter.get_content_length request
    .ok [("type", .jstr "request"),
         ("written_at", .jstr (iso_time_format utcnow)),
         ("written_ts", .jint (epoch_nano_second utcnow)),
         ("component_id", .jstr COMPONENT_ID),
         ("component_name", .jstr COMPONENT_NAME),
         ("component_instance", .jint COMPONENT_INSTANCE_INDEX),
         ("correlation_id", .jstr (corrOf request)),
         ("remote_user", .jstr (request_adapter.get_remote_user request)),
         ("request", .jstr (request_adapter.get_path request)),
         ("referer",
          .jstr (request_adapter.get_http_header request "referer" EMPTY_VALUE)),
         ("x_forwarded_for",
          .jstr (request_adapter.get_http_header request "x-forwarded-for"
            EMPTY_VALUE)),
         ("protocol", .jstr (request_adapter.get_protocol request)),
         ("method", .jstr (request_adapter.get_method request)),
         ("remote_ip", .jstr (request_adapter.get_remote_ip request)),
         ("request_size_b", .jint (parse_int length (-1))),
         ("remote_host", .jstr (request_adapter.get_remote_ip request)),
         ("remote_port", request_adapter.get_remote_port request),
         ("request_received_at", .jstr request_info.request_received_at),
         ("response_time_ms", .jint rtm),
         ("response_status", st),
         ("response_size_b", sz),
         ("response_content_type", ct),
         ("response_sent_at", .jstr sentAt)]
  | _, _, _, _, _ => .error .attributeError

/-! The application-log formatters (`__init__.py` lines 231-319). -/

/-- A `logging.LogRecord` as far as the formatters observe it.  `msg` is the
result of `record.getMessage()` (deterministic in the record); `exc_info`,
when present, carries the traceback rendering
`''.join(traceback.format_exception(*record.exc_info))` (the `traceback`
module is external and deterministic in the stored exception); `exc_text` is
`record.exc_text` (`None` or a cached string). -/
structure LogRecord where
  name : String
  threadName : String
  levelname : String
  lineno : Int
  module : String
  filename : String
  msg : String
  props : Option (List (String × JVal))
  exc_info : Option String
  exc_text : Option String
deriving DecidableEq, Repr

/-- The Python truthiness test `record.exc_info or record.exc_text`
(`__init__.py` lines 270, 316): a tuple is truthy when present, a string
when non-empty. -/
def LogRecord.hasExc (record : LogRecord) : Bool :=
  record.exc_info.isSome ||
    (match record.exc_text with
     | some t => t ≠ ""
     | none => false)

/-- `get_exc_fields` (`__init__.py` lines 236-244 and 281-289, identical in
both formatters): the rendered traceback when `exc_info` is truthy, else the
cached `exc_text` (which may be `None`, serialized as JSON `null`). -/
def get_exc_fields (record : LogRecord) : List (String × JVal) :=
  let excVal : JVal :=
    match record.exc_info with
    | some rendered => .jstr rendered
    | none =>
      match record.exc_text with
      | some t => .jstr t
      | none => .jnull
  [("exc_info", excVal), ("filename", .jstr record.filename)]

/-- The fixed-field dict literal of `JSONLogFormatter.format`
(`__init__.py` lines 253-265), in source order. -/
def plainFixed (utcnow : Nat) (record : LogRecord) : List (String × JVal) :=
  [("type", .jstr "log"),
   ("written_at", .jstr (iso_time_format utcnow)),
   ("written_ts", .jint (epoch_nano_second utcnow)),
   ("component_id", .jstr COMPONENT_ID),
   ("component_name", .jstr COMPONENT_NAME),
   ("component_instance", .jint COMPONENT_INSTANCE_INDEX),
   ("logger", .jstr record.name),
   ("thread", .jstr record.threadName),
   ("level", .jstr record.levelname),
   ("line_no", .jint record.lineno),
   ("module", .jstr record.module),
   ("msg", .jstr record.msg)]

/-- The fixed-field dict literal of `JSONLogWebFormatter.format`
(`__init__.py` lines 298-311), in source order (`module` before `line_no`
there, unlike the plain formatter).  `corr` stands for the
`_request_util.get_correlation_id()` call on line 309 (its body is in
`json_logging/util.py`, outside the provided sources). -/
def webFixed (corr : String) (utcnow : Nat) (record : LogRecord) :
    List (String × JVal) :=
  [("type", .jstr "log"),
   ("written_at", .jstr (iso_time_format utcnow)),
   ("written_ts", .jint (epoch_nano_second utcnow)),
   ("component_id", .jstr COMPONENT_ID),
   ("component_name", .jstr COMPONENT_NAME),
   ("component_instance", .jint COMPONENT_INSTANCE_INDEX),
   ("logger", .jstr record.name),
   ("thread", .jstr record.threadName),
   ("level", .jstr record.levelname),
   ("module", .jstr record.module),
   ("line_no", .jint record.lineno),
   ("correlation_id", .jstr corr),
   ("msg", .jstr record.msg)]

/-- `if hasattr(record, 'props'): json_log_object.update(record.props)`
(`__init__.py` lines 267-268 and 313-314). -/
def mergeProps (record : LogRecord) (json_log_object : List (String × JVal)) :
    List (String × JVal) :=
  match record.props with
  | some props => dictUpdate json_log_object props
  | none => json_log_object

/-- `if record.exc_info or record.exc_text:
json_log_object.update(self.get_exc_fields(record))` (`__init__.py`
lines 270-271 and 316-317). -/
def mergeExc (record : LogRecord) (json_log_object : List (String × JVal)) :
    List (String × JVal) :=
  if record.hasExc then dictUpdate json_log_object (get_exc_fields record)
  else json_log_object

/-- `JSONLogFormatter.format` (`__init__.py` lines 251-273): the fixed
fields in order, then `update` with the record's `props` when present, then
`update` with the exception fields when the record carries exception info.
The result is the dict handed to `JSON_SERIALIZER`. -/
def JSONLogFormatter.format (utcnow : Nat) (record : LogRecord) :
    List (String × JVal) :=
  mergeExc record (mergeProps record (plainFixed utcnow record))

/-- `JSONLogWebFormatter.format` (`__init__.py` lines 296-319): as the plain
formatter but starting from the web fixed fields (with `correlation_id`). -/
def JSONLogWebFormatter.format (corr : String) (utcnow : Nat)
    (record : LogRecord) : List (String × JVal) :=
  mergeExc record (mergeProps record (webFixed corr utcnow record))

/-- A deterministic stand-in for `JSON_SERIALIZER = json.dumps`
(`__init__.py` line 21; `json` is the external standard library): one JSON
document rendered from the insertion-ordered dict.  Only its determinism
matters to the claims. -/
def JVal.render : JVal → String
  | .jnull => "null"
  | .jstr s => "\"" ++ s ++ "\""
  | .jint n => toString n

/-- Render a whole dict as one JSON object (stand-in for `json.dumps`). -/
def jsonSerialize (d : List (String × JVal)) : String :=
  "\x7b" ++
    String.intercalate ", "
      (d.map (fun p => "\"" ++ p.1 ++ "\": " ++ p.2.render)) ++
    "\x7d"

/-- The two clock-dependent keys of the log formatters. -/
def tsKeys : List String := ["written_at", "written_ts"]

/-- Drop the clock-dependent fields from a formatted dict. -/
def eraseTs (d : List (String × JVal)) : List (String × JVal) :=
  d.filter (fun p => !(tsKeys.contains p.1))

/-- The fixed-field keys of `JSONLogFormatter.format`, in source order. -/
def plainFixedKeys : List String :=
  ["type", "written_at", "written_ts", "component_id", "component_name",
   "component_instance", "logger", "thread", "level", "line_no", "module",
   "msg"]

/-- The fixed-field keys of `JSONLogWebFormatter.format`, in source order. -/
def webFixedKeys : List String :=
  ["type", "written_at", "written_ts", "component_id", "component_name",
   "component_instance", "logger", "thread", "level", "module", "line_no",
   "correlation_id", "msg"]

/-- Entry-wise agreement of two formatted dicts up to the clock-dependent
fields: same key, and the same entry whenever the key is not a timestamp
key. -/
def TsAgree (p q : String × JVal) : Prop :=
  p.1 = q.1 ∧ (tsKeys.contains p.1 = false → p = q)

/-! The framework registry and initialization (`__init__.py` lines 27-28,
43-71 and 98-146). -/

/-- A Python class object as the registry observes it: an identity plus the
subclass facts `util.validate_subclass` / `issubclass` tests against the
`framework_base` abstract classes and `logging.Formatter`. -/
structure ClassTok where
  ident : String
  isRequestAdapter : Bool
  isResponseAdapter : Bool
  isInstrumentationConfigurator : Bool
  isFrameworkConfigurator : Bool
  isLoggingFormatter : Bool
deriving DecidableEq, Repr

/-- One entry of `_framework_support_map` (`__init__.py` lines 66-71). -/
structure FrameworkBinding where
  app_configurator : Option ClassTok
  app_request_instrumentation_configurator : ClassTok
  request_adapter_class : ClassTok
  response_adapter_class : ClassTok
deriving DecidableEq, Repr

/-- `register_framework_support` (`__init__.py` lines 43-71): reject an
empty name, validate the supplied classes against the adapter/configurator
base classes (`util.validate_subclass` raises on a non-subclass), lower-case
the name, warn when the name is already registered, then overwrite the map
entry.  Returns the raised error if any, the updated map, and the warnings
emitted. -/
def register_framework_support (name : String)
    (app_configurator : Option ClassTok)
    (app_request_instrumentation_configurator : ClassTok)
    (request_adapter_class : ClassTok) (response_adapter_class : ClassTok)
    (framework_support_map : List (String × FrameworkBinding)) :
    Option PyError × List (String × FrameworkBinding) × List String :=
  if name = "" then
    (some (.runtimeError "framework name can not be null or empty"),
     framework_support_map, [])
  else if !request_adapter_class.isRequestAdapter then
    (some (.runtimeError "validate_subclass"), framework_support_map, [])
  else if !response_adapter_class.isResponseAdapter then
    (some (.runtimeError "validate_subclass"), framework_support_map, [])
  else if !app_request_instrumentation_configurator.isInstrumentationConfigurator
      then
    (some (.runtimeError "validate_subclass"), framework_support_map, [])
  else if !(match app_configurator with
            | some c => c.isFrameworkConfigurator
            | none => true) then
    (some (.runtimeError "validate_subclass"), framework_support_map, [])
  else
    let lowered := pyLower name
    let warnings :=
      if dictContains framework_support_map lowered then
        ["Re-register framework " ++ lowered]
      else []
    (none,
     dictSet framework_support_map lowered
       { app_configurator := app_configurator
         app_request_instrumentation_configurator :=
           app_request_instrumentation_configurator
         request_adapter_class := request_adapter_class
         response_adapter_class := response_adapter_class },
     warnings)

/-- The module-level mutable state `init` reads and writes
(`__init__.py` lines 27-30 plus `logging._defaultFormatter` and the
formatters installed on the existing loggers by
`util.update_formatter_for_loggers`). -/
structure LoggingState where
  current_framework : Option FrameworkBinding
  framework_support_map : List (String × FrameworkBinding)
  request_util : Option (ClassTok × ClassTok)
  defaultFormatterInstalled : Option ClassTok
  loggersFormatter : Option ClassTok
deriving DecidableEq, Repr

/-- The class token standing for `JSONLogWebFormatter`. -/
def webFormatterTok : ClassTok :=
  { ident := "JSONLogWebFormatter", isRequestAdapter := false,
    isResponseAdapter := false, isInstrumentationConfigurator := false,
    isFrameworkConfigurator := false, isLoggingFormatter := true }

/-- The class token standing for `JSONLogFormatter`. -/
def plainFormatterTok : ClassTok :=
  { ident := "JSONLogFormatter", isRequestAdapter := false,
    isResponseAdapter := false, isInstrumentationConfigurator := false,
    isFrameworkConfigurator := false, isLoggingFormatter := true }

/-- Python truthiness of an optional string (`if framework_name:`,
`elif custom_formatter:`): present and non-empty / present. -/
def strTruthy : Option String → Bool
  | some s => s ≠ ""
  | none => false

/-- `init` (`__init__.py` lines 98-146) as a state transition: raise
`RuntimeError` at once when `_current_framework` is already set (before any
mutation); otherwise select the framework binding (raising on an unknown
name), or validate and take the custom formatter, or fall back to the plain
formatter; then install the chosen formatter as the logging default (when
JSON logging is enabled) and on all existing loggers.  Returns the raised
error, if any, together with the post-state; every raise in the source
happens before the first mutation, so the post-state on error is the input
state. -/
def init (enableJsonLogging : Bool) (framework_name : Option String)
    (custom_formatter : Option ClassTok) (s : LoggingState) :
    Option PyError × LoggingState :=
  if s.current_framework.isSome then
    (some (.runtimeError "Can not call init more than once"), s)
  else if strTruthy framework_name then
    let lowered := pyLower (framework_name.getD "")
    match dictGet? s.framework_support_map lowered with
    | none =>
      (some (.runtimeError (lowered ++ "is not a supported framework")), s)
    | some binding =>
      let s1 := { s with
                  current_framework := some binding
                  request_util := some (binding.request_adapter_class,
                    binding.response_adapter_class) }
      let s2 := { s1 with
                  defaultFormatterInstalled :=
                    if enableJsonLogging then some webFormatterTok
                    else s1.defaultFormatterInstalled
                  loggersFormatter := some webFormatterTok }
      (none, s2)
  else
    match custom_formatter with
    | some c =>
      if !c.isLoggingFormatter then (some .valueError, s)
      else
        (none, { s with
                 defaultFormatterInstalled :=
                   if enableJsonLogging then some c
                   else s.defaultFormatterInstalled
                 loggersFormatter := some c })
    | none =>
      (none, { s with
               defaultFormatterInstalled :=
                 if enableJsonLogging then some plainFormatterTok
                 else s.defaultFormatterInstalled
               loggersFormatter := some plainFormatterTok })

/-! Concrete fixtures used by witnesses and counterexamples. -/

/-- A response adapter reporting status 200, size 1234 and content type
`application/json` for its (unit) response. -/
def c200 : ResponseAdapterModel Unit where
  get_status_code _ := .ok (.jint 200)
  get_response_size _ := .ok (.jint 1234)
  get_content_type _ := .ok (.jstr "application/json")

/-- A trivial request adapter over the unit request type. -/
def unitRequestAdapter : RequestAdapterModel Unit where
  get_http_header _ _ d := d
  get_remote_user _ := EMPTY_VALUE
  get_path _ := "/"
  get_protocol _ := "HTTP/1.1"
  get_method _ := "GET"
  get_remote_ip _ := EMPTY_VALUE
  get_remote_port _ := .jstr EMPTY_VALUE
  get_content_length _ := EMPTY_VALUE

/-- A plain log record without props or exception info. -/
def rec0 : LogRecord :=
  { name := "app", threadName := "MainThread", levelname := "INFO",
    lineno := 12, module := "m", filename := "m.py", msg := "hello",
    props := none, exc_info := none, exc_text := none }

/-- A log record whose props shadow the fixed `msg` field. -/
def recProps : LogRecord :=
  { name := "app", threadName := "MainThread", levelname := "INFO",
    lineno := 12, module := "m", filename := "m.py", msg := "original",
    props := some [("msg", .jstr "shadow"), ("custom_dim", .jstr "d1")],
    exc_info := none, exc_text := none }

/-- A Django request carrying only an `X-Request-ID` header. -/
def reqWithRequestId : DjangoRequest :=
  { META := [("HTTP_X_REQUEST_ID", "abc-123")], path := "/x",
    method := "GET", user := none }

/-- A Django response with no headers at all and a failing stream probe. -/
def bareDjangoResponse : DjangoResponse :=
  { status_code := 200, headers := [], tellResult := none }

/-- A class token conforming to the `RequestAdapter` base class. -/
def reqAdapterTokA : ClassTok :=
  { ident := "ReqAdapterA", isRequestAdapter := true,
    isResponseAdapter := false, isInstrumentationConfigurator := false,
    isFrameworkConfigurator := false, isLoggingFormatter := false }

/-- A second, distinct class token conforming to `RequestAdapter`. -/
def reqAdapterTokB : ClassTok :=
  { ident := "ReqAdapterB", isRequestAdapter := true,
    isResponseAdapter := false, isInstrumentationConfigurator := false,
    isFrameworkConfigurator := false, isLoggingFormatter := false }

/-- A class token conforming to the `ResponseAdapter` base class. -/
def respAdapterTok : ClassTok :=
  { ident := "RespAdapter", isRequestAdapter := false,
    isResponseAdapter := true, isInstrumentationConfigurator := false,
    isFrameworkConfigurator := false, isLoggingFormatter := false }

/-- A class token conforming to the instrumentation-configurator base. -/
def instrConfTok : ClassTok :=
  { ident := "InstrConf", isRequestAdapter := false,
    isResponseAdapter := false, isInstrumentationConfigurator := true,
    isFrameworkConfigurator := false, isLoggingFormatter := false }

/-- The registry binding built from the first registration fixtures. -/
def bindingA : FrameworkBinding :=
  { app_configurator := none,
    app_request_instrumentation_configurator := instrConfTok,
    request_adapter_class := reqAdapterTokA,
    response_adapter_class := respAdapterTok }

/-- A process state in which `init` has already selected `bindingA`. -/
def initializedState : LoggingState :=
  { current_framework := some bindingA
    framework_support_map := [("flask", bindingA)]
    request_util := some (reqAdapterTokA, respAdapterTok)
    defaultFormatterInstalled := some webFormatterTok
    loggersFormatter := some webFormatterTok }

/-! General lemmas about the dict operations. -/

theorem dictGet?_append {α : Type} (d e : List (String × α)) (k : String) :
    dictGet? (d ++ e) k =
      match dictGet? d k with
      | some v => some v
      | none => dictGet? e k := by
  induction d with
  | nil => simp [dictGet?]
  | cons p rest ih =>
    obtain ⟨k', v'⟩ := p
    by_cases hk : k' = k
    · simp [dictGet?, hk]
    · simpa [dictGet?, hk] using ih

theorem dictContains_of_get? {α : Type} {d : List (String × α)} {k : String}
    {v : α} (h : dictGet? d k = some v) : dictContains d k = true := by
  induction d with
  | nil => simp [dictGet?] at h
  | cons p rest ih =>
    obtain ⟨k', v'⟩ := p
    by_cases hk : k' = k
    · simp [dictContains, hk]
    · simp only [dictGet?, if_neg hk] at h
      have := ih h
      simp [dictContains] at this ⊢
      exact Or.inr this

theorem get?_isSome_of_dictContains {α : Type} {d : List (String × α)}
    {k : String} (h : dictContains d k = true) :
    (dictGet? d k).isSome = true := by
  induction d with
  | nil => simp [dictContains] at h
  | cons p rest ih =>
    obtain ⟨k', v'⟩ := p
    by_cases hk : k' = k
    · simp [dictGet?, hk]
    · simp [dictContains, hk] at h
      simp only [dictGet?, if_neg hk]
      exact ih (by simpa [dictContains] using h)

theorem dictGet?_mapSet_self {α : Type} {d : List (String × α)} {k : String}
    (v : α) (h : dictContains d k = true) :
    dictGet? (d.map (fun p => if p.1 = k then (k, v) else p)) k = some v := by
  induction d with
  | nil => simp [dictContains] at h
  | cons p rest ih =>
    obtain ⟨k', v'⟩ := p
    simp only [List.map_cons]
    dsimp only
    by_cases hk : k' = k
    · subst hk
      rw [if_pos rfl]
      simp [dictGet?]
    · rw [if_neg hk]
      simp only [dictGet?, if_neg hk]
      simp [dictContains, hk] at h
      exact ih (by simpa [dictContains] using h)

theorem dictGet?_mapSet_ne {α : Type} (d : List (String × α)) {k k' : String}
    (v : α) (h : k' ≠ k) :
    dictGet? (d.map (fun p => if p.1 = k' then (k', v) else p)) k =
      dictGet? d k := by
  induction d with
  | nil => simp
  | cons p rest ih =>
    obtain ⟨k₁, v₁⟩ := p
    simp only [List.map_cons]
    dsimp only
    by_cases hk : k₁ = k'
    · subst hk
      rw [if_pos rfl]
      simp only [dictGet?, if_neg h]
      exact ih
    · rw [if_neg hk]
      simp only [dictGet?]
      by_cases hk2 : k₁ = k
      · rw [if_pos hk2, if_pos hk2]
      · rw [if_neg hk2, if_neg hk2]
        exact ih

theorem dictGet?_dictSet_self {α : Type} (d : List (String × α)) (k : String)
    (v : α) : dictGet? (dictSet d k v) k = some v := by
  unfold dictSet
  by_cases h : dictContains d k
  · rw [if_pos h]
    exact dictGet?_mapSet_self v h
  · rw [if_neg h, dictGet?_append]
    have hnone : dictGet? d k = none := by
      rcases hs : dictGet? d k with _ | w
      · rfl
      · exact absurd (dictContains_of_get? hs) h
    simp [hnone, dictGet?]

theorem dictGet?_dictSet_ne {α : Type} (d : List (String × α)) {k k' : String}
    (v : α) (h : k' ≠ k) : dictGet? (dictSet d k' v) k = dictGet? d k := by
  unfold dictSet
  by_cases hc : dictContains d k'
  · rw [if_pos hc]
    exact dictGet?_mapSet_ne d v h
  · rw [if_neg hc, dictGet?_append]
    rcases hs : dictGet? d k with _ | w
    · simp [dictGet?, h]
    · simp

theorem dictGet?_dictUpdate_not_mem {α : Type} {ps : List (String × α)}
    (d : List (String × α)) {k : String} (h : ∀ p ∈ ps, p.1 ≠ k) :
    dictGet? (dictUpdate d ps) k = dictGet? d k := by
  induction ps generalizing d with
  | nil => rfl
  | cons p rest ih =>
    obtain ⟨k₁, v₁⟩ := p
    have hk₁ : k₁ ≠ k := h (k₁, v₁) (List.mem_cons_self _ _)
    have hrest : ∀ p ∈ rest, p.1 ≠ k := fun p hp => h p (List.mem_cons_of_mem _ hp)
    show dictGet? (dictUpdate (dictSet d k₁ v₁) rest) k = dictGet? d k
    rw [ih (dictSet d k₁ v₁) hrest, dictGet?_dictSet_ne d v₁ hk₁]

theorem dictGet?_dictUpdate_mem {α : Type} {ps : List (String × α)}
    (d : List (String × α)) {k : String} {v : α}
    (hnd : (ps.map Prod.fst).Nodup) (h : dictGet? ps k = some v) :
    dictGet? (dictUpdate d ps) k = some v := by
  induction ps generalizing d with
  | nil => simp [dictGet?] at h
  | cons p rest ih =>
    obtain ⟨k₁, v₁⟩ := p
    simp only [List.map_cons, List.nodup_cons] at hnd
    obtain ⟨hk₁notin, hndrest⟩ := hnd
    by_cases hk : k₁ = k
    · subst hk
      simp only [dictGet?, if_pos rfl] at h
      have hv : v₁ = v := Option.some.inj h
      subst hv
      have hrest : ∀ p ∈ rest, p.1 ≠ k₁ := by
        intro p hp hpk
        exact hk₁notin (hpk ▸ List.mem_map_of_mem Prod.fst hp)
      show dictGet? (dictUpdate (dictSet d k₁ v₁) rest) k₁ = some v₁
      rw [dictGet?_dictUpdate_not_mem (dictSet d k₁ v₁) hrest]
      exact dictGet?_dictSet_self d k₁ v₁
    · simp only [dictGet?, if_neg hk] at h
      exact ih (dictSet d k₁ v₁) hndrest h

theorem dictContains_keys {α : Type} (d : List (String × α)) (k : String) :
    dictContains d k = (d.map Prod.fst).any (fun x => x == k) := by
  induction d with
  | nil => rfl
  | cons p rest ih => simp [dictContains] at ih ⊢; rw [ih]

theorem forall₂_tsAgree_keys {l1 l2 : List (String × JVal)}
    (h : List.Forall₂ TsAgree l1 l2) : l1.map Prod.fst = l2.map Prod.fst := by
  induction h with
  | nil => rfl
  | cons hpq _ ih => simp only [List.map_cons, hpq.1, ih]

theorem forall₂_tsAgree_mapSet {l1 l2 : List (String × JVal)}
    (h : List.Forall₂ TsAgree l1 l2) (k : String) (v : JVal) :
    List.Forall₂ TsAgree
      (l1.map (fun p => if p.1 = k then (k, v) else p))
      (l2.map (fun p => if p.1 = k then (k, v) else p)) := by
  induction h with
  | nil => exact .nil
  | @cons a b t1 t2 hpq hrest ih =>
    simp only [List.map_cons]
    refine List.Forall₂.cons ?_ ih
    obtain ⟨hkey, hval⟩ := hpq
    by_cases hak : a.1 = k
    · rw [if_pos hak, if_pos (hkey ▸ hak)]
      exact ⟨rfl, fun _ => rfl⟩
    · rw [if_neg hak, if_neg (hkey ▸ hak)]
      exact ⟨hkey, hval⟩

theorem forall₂_tsAgree_append {l1 l2 u1 u2 : List (String × JVal)}
    (h : List.Forall₂ TsAgree l1 l2) (hu : List.Forall₂ TsAgree u1 u2) :
    List.Forall₂ TsAgree (l1 ++ u1) (l2 ++ u2) := by
  induction h with
  | nil => exact hu
  | cons hpq hrest ih => exact List.Forall₂.cons hpq ih

theorem forall₂_tsAgree_dictSet {l1 l2 : List (String × JVal)}
    (h : List.Forall₂ TsAgree l1 l2) (k : String) (v : JVal) :
    List.Forall₂ TsAgree (dictSet l1 k v) (dictSet l2 k v) := by
  have hcont : dictContains l1 k = dictContains l2 k := by
    rw [dictContains_keys, dictContains_keys, forall₂_tsAgree_keys h]
  unfold dictSet
  rw [hcont]
  by_cases hc : dictContains l2 k
  · rw [if_pos hc, if_pos hc]
    exact forall₂_tsAgree_mapSet h k v
  · rw [if_neg hc, if_neg hc]
    exact forall₂_tsAgree_append h
      (List.Forall₂.cons ⟨rfl, fun _ => rfl⟩ List.Forall₂.nil)

theorem forall₂_tsAgree_dictUpdate {l1 l2 : List (String × JVal)}
    (h : List.Forall₂ TsAgree l1 l2) (ps : List (String × JVal)) :
    List.Forall₂ TsAgree (dictUpdate l1 ps) (dictUpdate l2 ps) := by
  induction ps generalizing l1 l2 with
  | nil => exact h
  | cons p rest ih => exact ih (forall₂_tsAgree_dictSet h p.1 p.2)

theorem forall₂_tsAgree_mergeProps (record : LogRecord)
    {l1 l2 : List (String × JVal)} (h : List.Forall₂ TsAgree l1 l2) :
    List.Forall₂ TsAgree (mergeProps record l1) (mergeProps record l2) := by
  unfold mergeProps
  cases record.props with
  | none => exact h
  | some props => exact forall₂_tsAgree_dictUpdate h props

theorem forall₂_tsAgree_mergeExc (record : LogRecord)
    {l1 l2 : List (String × JVal)} (h : List.Forall₂ TsAgree l1 l2) :
    List.Forall₂ TsAgree (mergeExc record l1) (mergeExc record l2) := by
  unfold mergeExc
  by_cases he : record.hasExc
  · rw [if_pos he, if_pos he]
    exact forall₂_tsAgree_dictUpdate h (get_exc_fields record)
  · rw [if_neg he, if_neg he]
    exact h

theorem eraseTs_eq_of_forall₂ {l1 l2 : List (String × JVal)}
    (h : List.Forall₂ TsAgree l1 l2) : eraseTs l1 = eraseTs l2 := by
  induction h with
  | nil => rfl
  | @cons a b t1 t2 hpq hrest ih =>
    obtain ⟨hkey, hval⟩ := hpq
    unfold eraseTs at ih ⊢
    cases hts : tsKeys.contains a.1 with
    | true =>
      have hb : tsKeys.contains b.1 = true := hkey ▸ hts
      simp only [List.filter_cons, hts, hb, Bool.not_true]
      exact ih
    | false =>
      have hab : a = b := hval hts
      have hb : tsKeys.contains b.1 = false := hkey ▸ hts
      simp only [List.filter_cons, hts, hb, Bool.not_false, hab]
      rw [ih]

theorem forall₂_plainFixed (record : LogRecord) (t1 t2 : Nat) :
    List.Forall₂ TsAgree (plainFixed t1 record) (plainFixed t2 record) := by
  unfold plainFixed
  refine List.Forall₂.cons ⟨rfl, fun _ => rfl⟩
    (List.Forall₂.cons ⟨rfl, fun hh => by simp [tsKeys] at hh⟩
      (List.Forall₂.cons ⟨rfl, fun hh => by simp [tsKeys] at hh⟩ ?_))
  repeat
    first
    | exact List.Forall₂.nil
    | refine List.Forall₂.cons ⟨rfl, fun _ => rfl⟩ ?_

/-! Claim theorems. -/

/-- C1: for every request carrying one of the configured correlation-id
headers (in the default order `X-Correlation-ID` then `X-Request-ID`) with a
present, non-empty value, resolving the correlation id returns exactly the
value of the first such header.  The conclusion holds for every generator
value `minted` and for both settings of the create-if-missing flag, so the
result is never a freshly minted identifier. -/
theorem C1_resolve_returns_first_header_value (r : DjangoRequest) (v : String)
    (minted : String) (createIfMissing : Bool)
    (h : (DjangoRequestAdapter.headerLookup r "X-Correlation-ID" = some v ∧
            v ≠ "") ∨
         ((DjangoRequestAdapter.headerLookup r "X-Correlation-ID" = none ∨
             DjangoRequestAdapter.headerLookup r "X-Correlation-ID" = some "") ∧
          DjangoRequestAdapter.headerLookup r "X-Request-ID" = some v ∧
          v ≠ "")) :
    resolveCorrelationId (DjangoRequestAdapter.headerLookup r) createIfMissing
      minted = v := by
  unfold resolveCorrelationId CORRELATION_ID_HEADERS
  rcases h with ⟨h1, hv⟩ | ⟨h0, h1, hv⟩
  · simp [firstPresentNonEmpty, h1, hv]
  · rcases h0 with h0 | h0 <;> simp [firstPresentNonEmpty, h0, h1, hv]

/-- C1 witness: a request carrying only `X-Request-ID: abc-123` resolves to
`abc-123`, not to the minted value. -/
theorem C1_witness :
    resolveCorrelationId
      (DjangoRequestAdapter.headerLookup reqWithRequestId) true "minted-id" =
      "abc-123" :=
  C1_resolve_returns_first_header_value reqWithRequestId "abc-123" "minted-id"
    true (Or.inr ⟨Or.inl (by decide), by decide, by decide⟩)

/-- C3: for arrival at or before completion, the `response_time_ms`
arithmetic of `update_response_status` — truncated whole seconds times 1000
plus the truncated millisecond remainder — equals the elapsed duration
truncated to whole milliseconds; no sub-second duration is double-counted or
misrounded. -/
theorem C3_response_time_is_truncated_millis (request_start utcnow : Nat)
    (h : request_start ≤ utcnow) :
    responseTimeMs request_start utcnow = (utcnow - request_start) / 1000 := by
  show (utcnow - request_start) / 1000000 * 1000 +
      (utcnow - request_start) % 1000000 / 1000 =
    (utcnow - request_start) / 1000
  omega

/-- C3 witness: a 1.234567-second exchange is reported as 1234 ms. -/
theorem C3_witness :
    responseTimeMs 100 1234667 = (1234667 - 100) / 1000 :=
  C3_response_time_is_truncated_millis 100 1234667 (by decide)

/-- C2: a RequestContext created at time T and finalized at T+50ms (50000
microseconds later) with a response whose adapter reports status 200, size
1234 and content type `application/json` yields, through the access-log
formatter, a JSON object with `response_status` 200, `response_size_b` 1234,
`response_content_type` `"application/json"` and `response_time_ms` 50 —
for every creation instant, request adapter and formatting instant. -/
theorem C2_access_log_round_trip {ρ : Type}
    (request_adapter : RequestAdapterModel ρ) (corrOf : ρ → String) (r : ρ)
    (t tf : Nat) :
    ∃ ri, RequestInfo.update_response_status c200 (RequestInfo.init r t) ()
        (t + 50000) = .ok ri ∧
      ∃ obj, JSONRequestLogFormatter.format request_adapter corrOf tf ri =
          .ok obj ∧
        dictGet? obj "response_status" = some (.jint 200) ∧
        dictGet? obj "response_size_b" = some (.jint 1234) ∧
        dictGet? obj "response_content_type" =
          some (.jstr "application/json") ∧
        dictGet? obj "response_time_ms" = some (.jint 50) := by
  have ht : responseTimeMs t (t + 50000) = 50 := by
    show (t + 50000 - t) / 1000000 * 1000 + (t + 50000 - t) % 1000000 / 1000
      = 50
    omega
  refine ⟨_, rfl, _, rfl, ?_, ?_, ?_, ?_⟩ <;>
    simp [dictGet?, RequestInfo.update_response_status, RequestInfo.init,
      c200, JSONRequestLogFormatter.format, ht]

/-- C4 counterexample: finalizing an already-finalized RequestContext a
second time is not signaled as an error: the second
`update_response_status` call returns an ordinary `.ok` result whose
`response_time_ms` is silently recomputed from the second completion
instant (here 120 ms instead of the first call's 50 ms). -/
theorem C4_counterexample :
    (Except.bind
      (RequestInfo.update_response_status c200 (RequestInfo.init () 0) ()
        50000)
      (fun ri1 =>
        RequestInfo.update_response_status c200 ri1 () 120000)).map
      (fun ri => ri.response_time_ms) = .ok (some 120) := rfl

/-- C4 (amended): `update_response_status` performs no double-finalize
check — a second call is silently accepted and overwrites every response
field, behaving exactly like a first finalization at the later instant;
formatting an access-log record from a never-finalized context does fail,
but with a missing-attribute error (`AttributeError` on the absent response
attributes), not a distinct invariant-violation signal. -/
theorem C4_amended_silent_refinalize_attribute_error {ρ σ : Type}
    (response_adapter : ResponseAdapterModel σ) (response : σ) (t1 t2 : Nat)
    (ri ri1 : RequestInfo ρ)
    (h : RequestInfo.update_response_status response_adapter ri response t1 =
      .ok ri1) :
    RequestInfo.update_response_status response_adapter ri1 response t2 =
      RequestInfo.update_response_status response_adapter ri response t2 ∧
    ∀ (request_adapter : RequestAdapterModel ρ) (corrOf : ρ → String)
      (utcnow t0 : Nat) (r : ρ),
      JSONRequestLogFormatter.format request_adapter corrOf utcnow
        (RequestInfo.init r t0) = .error .attributeError := by
  constructor
  · unfold RequestInfo.update_response_status at h ⊢
    cases hst : response_adapter.get_status_code response with
    | error e => simp [hst] at h
    | ok st =>
      rw [hst] at h
      cases hsz : response_adapter.get_response_size response with
      | error e => simp [hsz] at h
      | ok sz =>
        rw [hsz] at h
        cases hct : response_adapter.get_content_type response with
        | error e => simp [hct] at h
        | ok ct =>
          rw [hct] at h
          obtain rfl := Except.ok.inj h
          rfl
  · intro request_adapter corrOf utcnow t0 r
    rfl

/-- C4 witness: re-finalizing the concrete already-finalized context equals
finalizing the fresh context at the second instant. -/
theorem C4_witness :
    RequestInfo.update_response_status c200
        { request_start := 0, request := (),
          request_received_at := iso_time_format 0,
          response_time_ms := some (responseTimeMs 0 50000),
          response_status := some (.jint 200),
          response_size_b := some (.jint 1234),
          response_content_type := some (.jstr "application/json"),
          response_sent_at := some (iso_time_format 50000) } () 120000 =
      RequestInfo.update_response_status c200 (RequestInfo.init () 0) ()
        120000 :=
  (C4_amended_silent_refinalize_attribute_error c200 () 50000 120000
    (RequestInfo.init () 0) _ rfl).1

/-- C5 counterexample: `DjangoResponseAdapter.get_content_type` raises
`KeyError` on a response that carries no content type; it does not return
the empty-value sentinel, so the adapter operations do not all tolerate a
missing optional fact. -/
theorem C5_counterexample :
    DjangoResponseAdapter.get_content_type bareDjangoResponse =
      .error .keyError := rfl

/-- C5 (amended): `get_status_code` and `get_response_size` never raise:
`get_response_size` without an explicit `Content-Length` falls back to the
stream-position probe and returns the empty-value sentinel when that probe
raises too.  `get_content_type`, however, has no fallback: it raises
`KeyError` whenever the response carries no content type. -/
theorem C5_amended_size_tolerant_content_type_raises
    (response : DjangoResponse) :
    (∃ v, DjangoResponseAdapter.get_status_code response = .ok v) ∧
    (∃ v, DjangoResponseAdapter.get_response_size response = .ok v) ∧
    (dictContains response.headers "Content-Length" = false →
      response.tellResult = none →
      DjangoResponseAdapter.get_response_size response =
        .ok (.jstr EMPTY_VALUE)) ∧
    (∀ n, dictContains response.headers "Content-Length" = false →
      response.tellResult = some n →
      DjangoResponseAdapter.get_response_size response = .ok (.jint n)) ∧
    (dictGet? response.headers "Content-Type" = none →
      DjangoResponseAdapter.get_content_type response =
        .error .keyError) := by
  refine ⟨⟨.jint response.status_code, rfl⟩, ?_, ?_, ?_, ?_⟩
  · unfold DjangoResponseAdapter.get_response_size
    by_cases hc : dictContains response.headers "Content-Length"
    · rw [if_pos hc]
      exact ⟨_, rfl⟩
    · rw [if_neg hc]
      cases response.tellResult with
      | none => exact ⟨_, rfl⟩
      | some n => exact ⟨_, rfl⟩
  · intro hc ht
    unfold DjangoResponseAdapter.get_response_size
    simp [hc, ht]
  · intro n hc ht
    unfold DjangoResponseAdapter.get_response_size
    simp [hc, ht]
  · intro h
    unfold DjangoResponseAdapter.get_content_type
    rw [h]

/-- C5 witness: on the concrete header-less response whose stream probe
fails, `get_response_size` returns the sentinel instead of raising. -/
theorem C5_witness :
    DjangoResponseAdapter.get_response_size bareDjangoResponse =
      .ok (.jstr EMPTY_VALUE) :=
  (C5_amended_size_tolerant_content_type_raises
    bareDjangoResponse).2.2.1 (by decide) (by decide)

/-- C8: once `init` has completed (the active framework is set), every
further call to `init` fails with the configuration error
`RuntimeError("Can not call init more than once")` and returns the process
state exactly unchanged — the active framework binding remains the one the
first call set, whatever arguments the second call passes. -/
theorem C8_second_init_fails_state_unchanged (enableJsonLogging : Bool)
    (framework_name : Option String) (custom_formatter : Option ClassTok)
    (s : LoggingState) (b : FrameworkBinding)
    (h : s.current_framework = some b) :
    init enableJsonLogging framework_name custom_formatter s =
      (some (.runtimeError "Can not call init more than once"), s) := by
  unfold init
  rw [h]
  rfl

/-- C8 witness: re-initializing an already-initialized process state fails
and leaves the state untouched. -/
theorem C8_witness :
    init true (some "django") none initializedState =
      (some (.runtimeError "Can not call init more than once"),
       initializedState) :=
  C8_second_init_fails_state_unchanged true (some "django") none
    initializedState bindingA rfl

/-- C9: registering a framework name that is already in the registry, with
valid adapter and configurator classes, does not fail, emits the
re-registration warning, and overwrites the stored binding, so that looking
the name up afterwards returns the second registration's classes. -/
theorem C9_reregistration_warns_and_overwrites
    (reg : List (String × FrameworkBinding)) (name : String)
    (b0 : FrameworkBinding) (app_configurator : Option ClassTok)
    (instr reqA respA : ClassTok) (hname : name ≠ "")
    (hpresent : dictGet? reg (pyLower name) = some b0)
    (hreq : reqA.isRequestAdapter = true)
    (hresp : respA.isResponseAdapter = true)
    (hinstr : instr.isInstrumentationConfigurator = true)
    (happc : ∀ c, app_configurator = some c →
      c.isFrameworkConfigurator = true) :
    ∃ reg',
      register_framework_support name app_configurator instr reqA respA reg =
        (none, reg', ["Re-register framework " ++ pyLower name]) ∧
      dictGet? reg' (pyLower name) =
        some { app_configurator := app_configurator,
               app_request_instrumentation_configurator := instr,
               request_adapter_class := reqA,
               response_adapter_class := respA } := by
  have hcontains : dictContains reg (pyLower name) = true :=
    dictContains_of_get? hpresent
  refine ⟨dictSet reg (pyLower name)
    { app_configurator := app_configurator,
      app_request_instrumentation_configurator := instr,
      request_adapter_class := reqA,
      response_adapter_class := respA }, ?_, ?_⟩
  · unfold register_framework_support
    rw [if_neg hname]
    cases app_configurator with
    | none => simp [hreq, hresp, hinstr, hcontains]
    | some c => simp [hreq, hresp, hinstr, hcontains, happc c rfl]
  · exact dictGet?_dictSet_self _ _ _

/-- C9 witness: re-registering `flask` over an existing binding succeeds,
warns, and the next lookup returns the new classes. -/
theorem C9_witness :
    ∃ reg',
      register_framework_support "Flask" none instrConfTok reqAdapterTokB
          respAdapterTok [("flask", bindingA)] =
        (none, reg', ["Re-register framework " ++ pyLower "Flask"]) ∧
      dictGet? reg' (pyLower "Flask") =
        some { app_configurator := none,
               app_request_instrumentation_configurator := instrConfTok,
               request_adapter_class := reqAdapterTokB,
               response_adapter_class := respAdapterTok } :=
  C9_reregistration_warns_and_overwrites [("flask", bindingA)] "Flask"
    bindingA none instrConfTok reqAdapterTokB respAdapterTok (by decide)
    (by decide) (by decide) (by decide) (by decide)
    (fun c hc => by cases hc)

/-- C10: storing a correlation id on a Django request through
`set_correlation_id` round-trips: both `get_correlation_id_in_request_context`
and `get_http_header` with header name `X-Correlation-ID` (after the
adapter's `META`-key conversion) return the stored value. -/
theorem C10_django_correlation_id_round_trip (r : DjangoRequest)
    (v : String) :
    DjangoRequestAdapter.get_correlation_id_in_request_context
        (DjangoRequestAdapter.set_correlation_id r v) = v ∧
    DjangoRequestAdapter.get_http_header
        (DjangoRequestAdapter.set_correlation_id r v) "X-Correlation-ID"
        EMPTY_VALUE = v := by
  have hkey : DjangoRequestAdapter.metaKey "X-Correlation-ID" =
      "HTTP_X_CORRELATION_ID" := by decide
  constructor
  · show dictGetD (dictSet r.META "HTTP_X_CORRELATION_ID" v)
      "HTTP_X_CORRELATION_ID" EMPTY_VALUE = v
    unfold dictGetD
    rw [dictGet?_dictSet_self]
    rfl
  · show dictGetD (dictSet r.META "HTTP_X_CORRELATION_ID" v)
      (DjangoRequestAdapter.metaKey "X-Correlation-ID") EMPTY_VALUE = v
    rw [hkey]
    unfold dictGetD
    rw [dictGet?_dictSet_self]
    rfl

/-- C6: in both the plain and the web log formatter, the record's structured
properties are merged into the JSON object after all the fixed fields, so
for every fixed-field key that also occurs in the properties, the final
object carries the caller-supplied property value, not the fixed-field
value. -/
theorem C6_props_shadow_fixed_fields (record : LogRecord)
    (props : List (String × JVal)) (hprops : record.props = some props)
    (hnd : (props.map Prod.fst).Nodup) (k : String) (v : JVal)
    (hv : dictGet? props k = some v) (utcnow : Nat) (corr : String) :
    (k ∈ plainFixedKeys →
      dictGet? (JSONLogFormatter.format utcnow record) k = some v) ∧
    (k ∈ webFixedKeys →
      dictGet? (JSONLogWebFormatter.format corr utcnow record) k = some v) := by
  have hmergeExc : k ≠ "exc_info" → k ≠ "filename" →
      ∀ d : List (String × JVal),
        dictGet? (mergeExc record d) k = dictGet? d k := by
    intro h1 h2 d
    unfold mergeExc
    by_cases he : record.hasExc
    · rw [if_pos he]
      apply dictGet?_dictUpdate_not_mem
      intro p hp
      unfold get_exc_fields at hp
      simp only [List.mem_cons, List.mem_singleton, List.not_mem_nil,
        or_false] at hp
      rcases hp with rfl | rfl
      · exact fun hc => h1 hc.symm
      · exact fun hc => h2 hc.symm
    · rw [if_neg he]
  have hmergeProps : ∀ d : List (String × JVal),
      dictGet? (mergeProps record d) k = some v := by
    intro d
    unfold mergeProps
    rw [hprops]
    exact dictGet?_dictUpdate_mem d hnd hv
  constructor
  · intro hk
    have h1 : k ≠ "exc_info" := by rintro rfl; revert hk; decide
    have h2 : k ≠ "filename" := by rintro rfl; revert hk; decide
    unfold JSONLogFormatter.format
    rw [hmergeExc h1 h2]
    exact hmergeProps _
  · intro hk
    have h1 : k ≠ "exc_info" := by rintro rfl; revert hk; decide
    have h2 : k ≠ "filename" := by rintro rfl; revert hk; decide
    unfold JSONLogWebFormatter.format
    rw [hmergeExc h1 h2]
    exact hmergeProps _

/-- C6 witness: a record whose props carry `msg = "shadow"` formats, in both
formatters, to an object whose `msg` is the property value, not the record's
own message. -/
theorem C6_witness :
    dictGet? (JSONLogFormatter.format 0 recProps) "msg" =
      some (.jstr "shadow") ∧
    dictGet? (JSONLogWebFormatter.format "-" 0 recProps) "msg" =
      some (.jstr "shadow") :=
  ⟨(C6_props_shadow_fixed_fields recProps
      [("msg", .jstr "shadow"), ("custom_dim", .jstr "d1")] rfl (by decide)
      "msg" (.jstr "shadow") (by decide) 0 "-").1 (by decide),
   (C6_props_shadow_fixed_fields recProps
      [("msg", .jstr "shadow"), ("custom_dim", .jstr "d1")] rfl (by decide)
      "msg" (.jstr "shadow") (by decide) 0 "-").2 (by decide)⟩

/-- C7 counterexample: the timestamp fields are not generated once and
cached alongside the record — `JSONLogFormatter.format` recomputes
`written_at`/`written_ts` from the clock on every call, so two calls on the
same record at different instants produce different output. -/
theorem C7_counterexample :
    dictGet? (JSONLogFormatter.format 0 rec0) "written_ts" =
      some (.jint 0) ∧
    dictGet? (JSONLogFormatter.format 1 rec0) "written_ts" =
      some (.jint 1000) ∧
    JSONLogFormatter.format 0 rec0 ≠ JSONLogFormatter.format 1 rec0 := by
  have h1 : dictGet? (JSONLogFormatter.format 0 rec0) "written_ts" =
      some (.jint 0) := rfl
  have h2 : dictGet? (JSONLogFormatter.format 1 rec0) "written_ts" =
      some (.jint 1000) := rfl
  refine ⟨h1, h2, fun hEq => ?_⟩
  have h3 : dictGet? (JSONLogFormatter.format 0 rec0) "written_ts" =
      dictGet? (JSONLogFormatter.format 1 rec0) "written_ts" :=
    congrArg (fun d => dictGet? d "written_ts") hEq
  exact absurd ((h1.symm.trans h3).trans h2) (by decide)

/-- C7 (amended): formatting the same LogRecord twice with the plain
formatter produces byte-identical JSON excluding the timestamp fields
(`written_at`, `written_ts`); those two fields are recomputed from the
current clock on each format call rather than generated once and cached
alongside the record. -/
theorem C7_amended_output_stable_outside_timestamps (record : LogRecord)
    (t1 t2 : Nat) :
    eraseTs (JSONLogFormatter.format t1 record) =
      eraseTs (JSONLogFormatter.format t2 record) ∧
    jsonSerialize (eraseTs (JSONLogFormatter.format t1 record)) =
      jsonSerialize (eraseTs (JSONLogFormatter.format t2 record)) := by
  have h : eraseTs (JSONLogFormatter.format t1 record) =
      eraseTs (JSONLogFormatter.format t2 record) := by
    apply eraseTs_eq_of_forall₂
    unfold JSONLogFormatter.format
    exact forall₂_tsAgree_mergeExc record
      (forall₂_tsAgree_mergeProps record (forall₂_plainFixed record t1 t2))
  exact ⟨h, congrArg jsonSerialize h⟩
